import Mathlib

/-!
Verification of the creation-memory and reference-resolution subsystem: a
shallow embedding of `src/memory.py` (`LongTermMemory`), of the fallback
embedding and id lookup of `src/advanced_memory.py` (`AdvancedMemory`), and of
the reference branch of `Pipeline.enhance_prompt` in `src/main.py`.

Modelling conventions:

* Timestamps are integers (seconds since an epoch).  `datetime.now().isoformat()`
  strings compare lexicographically exactly as the instants they denote compare
  chronologically, and `JULIANDAY` is an affine strictly increasing map of time,
  so the `ORDER BY timestamp DESC` comparison and the
  `ABS(JULIANDAY(a) - JULIANDAY(b))` distance comparisons are mirrored by
  integer comparison and integer absolute difference (an affine map with
  positive slope preserves both the order of absolute differences and their
  ties).
* The SQLite table scan visits rows in rowid (insertion) order and `ORDER BY`
  is modelled as a stable sort over that scan: rows whose sort keys compare
  equal are emitted in scan order.  `ORDER BY ... LIMIT 1` therefore yields the
  first minimum in scan order.
* The sqlite connection is modelled by a `connOk` flag; a raised
  `sqlite3.Error` in a `cursor.execute` call corresponds to `connOk = false`,
  making the `except sqlite3.Error` branch run.
* `dateutil.parser.parse(s, fuzzy=True)` is an external library call, modelled
  as an oracle `parse : String → Option Int` where `none` stands for a raised
  `ValueError` (dateutil's `ParserError` subclasses `ValueError`).
* Python's built-in `hash` on strings is fixed within one process, modelled as
  an oracle `pyHash : String → Int`.
-/

/-- One row of the `creations` table (src/memory.py, lines 32-41): an
AUTOINCREMENT integer primary key, a timestamp and four text fields. -/
structure Creation where
  id : Nat
  timestamp : Int
  original_prompt : String
  enhanced_prompt : String
  image_path : String
  model_path : String
deriving DecidableEq

/-- State of `LongTermMemory`: the table rows in rowid (insertion) order, the
next AUTOINCREMENT value, and whether the sqlite connection works. -/
structure LongTermMemory where
  rows : List Creation
  nextId : Nat
  connOk : Bool
deriving DecidableEq

/-- LongTermMemory.save_creation (src/memory.py, lines 46-57).  It INSERTs a
row carrying the current time and commits; a sqlite error is caught and
printed, leaving the table unchanged.  The Python function always returns
`None`, modelled as `none : Option Nat` (the second component): no identifier
is ever handed back, on success or on failure. -/
def LongTermMemory.save_creation (m : LongTermMemory) (now : Int)
    (original_prompt enhanced_prompt image_path model_path : String) :
    LongTermMemory × Option Nat :=
  if m.connOk then
    ({ m with
        rows := m.rows ++ [{ id := m.nextId, timestamp := now,
                             original_prompt := original_prompt,
                             enhanced_prompt := enhanced_prompt,
                             image_path := image_path,
                             model_path := model_path }],
        nextId := m.nextId + 1 }, none)
  else (m, none)

/-- Stable insertion of a row into a list already sorted by timestamp
descending: the row goes after every row with a strictly larger timestamp and
before rows with an equal one that were inserted later in the fold. -/
def insertDesc (r : Creation) : List Creation → List Creation
  | [] => [r]
  | x :: xs => if r.timestamp < x.timestamp then x :: insertDesc r xs else r :: x :: xs

/-- Stable sort by timestamp descending, modelling `ORDER BY timestamp DESC`
over a scan of the rows in rowid order: rows with equal timestamps stay in
scan (ascending id) order. -/
def sortTimestampDesc : List Creation → List Creation
  | [] => []
  | x :: xs => insertDesc x (sortTimestampDesc xs)

/-- LongTermMemory.get_all_creations (src/memory.py, lines 78-85):
`SELECT * FROM creations ORDER BY timestamp DESC`; a sqlite error is caught,
printed, and the empty list is returned. -/
def LongTermMemory.get_all_creations (m : LongTermMemory) : List Creation :=
  if m.connOk then sortTimestampDesc m.rows else []

/-- Python `str.lower`, character by character. -/
def pyLower (s : String) : String := String.mk (s.data.map Char.toLower)

/-- Time distance used by `ORDER BY ABS(JULIANDAY(timestamp) - JULIANDAY(?))`. -/
def tdist (a b : Int) : Int := (a - b).natAbs

/-- First row of minimum distance in scan order: models
`ORDER BY ABS(JULIANDAY(timestamp) - JULIANDAY(?)) LIMIT 1`, the stable sort
handing back the earliest-scanned row among distance ties. -/
def selectNearest (target : Int) : List Creation → Option Creation
  | [] => none
  | c :: cs =>
    match selectNearest target cs with
    | none => some c
    | some d =>
      if tdist d.timestamp target < tdist c.timestamp target then some d else some c

/-- Target parsing step of get_creation_by_date (src/memory.py, lines 62-66):
the literal token "now" (case-insensitively) means the current instant,
anything else goes through dateutil fuzzy parsing (the `parse` oracle). -/
def parseTarget (parse : String → Option Int) (now : Int) (date_str : String) :
    Option Int :=
  if pyLower date_str = "now" then some now else parse date_str

/-- LongTermMemory.get_creation_by_date (src/memory.py, lines 59-76): parse
the target, select the row nearest in time, `LIMIT 1`.  A `ValueError` from
parsing and a sqlite error both land in the same except branch, which prints
and returns the empty list. -/
def LongTermMemory.get_creation_by_date (parse : String → Option Int)
    (m : LongTermMemory) (now : Int) (date_str : String) : List Creation :=
  match parseTarget parse now date_str with
  | none => []
  | some target =>
    if m.connOk then
      match selectNearest target m.rows with
      | none => []
      | some c => [c]
    else []

/-- Accumulating splitter behind pySplit: walks the characters, gathering the
current token in reversed form in `acc`, emitting it at each whitespace run. -/
def pySplitAux : List Char → List Char → List String
  | [], acc => if acc = [] then [] else [String.mk acc.reverse]
  | c :: cs, acc =>
    if c.isWhitespace then
      if acc = [] then pySplitAux cs []
      else String.mk acc.reverse :: pySplitAux cs []
    else pySplitAux cs (c :: acc)

/-- Python `text.split()`: split on whitespace runs, producing no empty
tokens. -/
def pySplit (text : String) : List String := pySplitAux text.data []

/-- Fallback path of AdvancedMemory.generate_embedding (src/advanced_memory.py,
lines 25 and 33): `[hash(word) % 1000 / 1000 for word in text.split()[:20]]`.
Python `%` with a positive modulus is `Int.emod`, and `/` is true division,
modelled exactly in ℚ.  `pyHash` is the process-fixed string hash. -/
def fallback_embedding (pyHash : String → Int) (text : String) : List ℚ :=
  ((pySplit text).take 20).map (fun w => ((pyHash w % 1000 : Int) : ℚ) / 1000)

/-- Metadata stored with a creation in the ChromaDB collection
(src/advanced_memory.py, lines 47-53). -/
structure Metadata where
  original_prompt : String
  enhanced_prompt : String
  image_path : String
  model_path : String
  timestamp : Int
deriving DecidableEq

/-- AdvancedMemory.get_creation_by_id (src/advanced_memory.py, lines 98-111).
`self.collection.get(ids=[creation_id])` is the engine oracle `engineGet`,
returning the parallel `ids` and `metadatas` lists on success or a raised
engine error.  A raised error is caught by the bare `except` and mapped to
`None`; an empty `metadatas` list (the id is absent) also yields `None`; the
out-of-range index access when `ids` is empty but `metadatas` is not would
raise an `IndexError`, again caught by the bare `except`. -/
def AdvancedMemory.get_creation_by_id
    (engineGet : String → Except String (List String × List Metadata))
    (creation_id : String) : Option (String × Metadata) :=
  match engineGet creation_id with
  | .error _ => none
  | .ok (ids, metas) =>
    match metas, ids with
    | [], _ => none
    | _ :: _, [] => none
    | meta :: _, i :: _ => some (i, meta)

/-- Reference branch of Pipeline.enhance_prompt (src/main.py, lines 86-110),
producing the pair of strings interpolated into the grounding reference text,
or `none` when no grounding is produced.  `useAdv` is
`Pipeline.use_advanced_memory`; `adv` models
`advanced_mem.get_creation_by_id` restricted to the two prompt strings read
out of its metadata.  For the two `LongTermMemory` branches the code
interpolates `creation[1]` and `creation[2]`, which in the row tuple
`(id, timestamp, original_prompt, enhanced_prompt, image_path, model_path)`
are the timestamp and the original prompt.  The whole branch sits inside a
`try`/`except Exception` that only logs, so the model is a total function: no
exception reaches the caller. -/
def resolve_reference (parse : String → Option Int)
    (useAdv : Bool) (adv : String → Option (String × String))
    (ltm : LongTermMemory) (now : Int) (reference_date : String) :
    Option (String × String) :=
  if reference_date = "" then none
  else if pyLower reference_date = "recent" then
    match ltm.get_all_creations with
    | [] => none
    | c :: _ => some (toString c.timestamp, c.original_prompt)
  else if useAdv = true ∧ 30 < reference_date.length then
    adv reference_date
  else
    match LongTermMemory.get_creation_by_date parse ltm now reference_date with
    | [] => none
    | c :: _ => some (toString c.timestamp, c.original_prompt)

/-- Empty healthy store, as right after `_create_table` on a fresh database
(sqlite AUTOINCREMENT assigns 1 to the first row). -/
def emptyStore : LongTermMemory := { rows := [], nextId := 1, connOk := true }

/-- Concrete row created one hour (3600 s) before the instant 100000. -/
def rowEarly : Creation :=
  { id := 1, timestamp := 96400, original_prompt := "p1", enhanced_prompt := "q1",
    image_path := "i1", model_path := "m1" }

/-- Concrete row created one hour (3600 s) after the instant 100000. -/
def rowLate : Creation :=
  { id := 2, timestamp := 103600, original_prompt := "p2", enhanced_prompt := "q2",
    image_path := "i2", model_path := "m2" }

/-- Healthy store holding `rowEarly` and `rowLate`. -/
def twoRowStore : LongTermMemory :=
  { rows := [rowEarly, rowLate], nextId := 3, connOk := true }

/-- Healthy store holding only `rowEarly`. -/
def oneRowStore : LongTermMemory :=
  { rows := [rowEarly], nextId := 2, connOk := true }

/-- Store holding `rowEarly` whose connection has gone bad: every
`cursor.execute` raises `sqlite3.Error`. -/
def brokenStore : LongTermMemory :=
  { rows := [rowEarly], nextId := 2, connOk := false }

/-- Relation describing the output order of get_all_creations under the stable
scan model: strictly newer rows come first, and rows with equal timestamps
appear in ascending identifier order. -/
def newerFirst (a b : Creation) : Prop :=
  b.timestamp < a.timestamp ∨ (a.timestamp = b.timestamp ∧ a.id < b.id)

theorem mem_insertDesc {r x : Creation} {l : List Creation} :
    x ∈ insertDesc r l ↔ x = r ∨ x ∈ l := by
  induction l with
  | nil => simp [insertDesc]
  | cons a as ih =>
    simp only [insertDesc]
    split
    · simp only [List.mem_cons, ih]
      tauto
    · simp only [List.mem_cons]

theorem mem_sortTimestampDesc {x : Creation} {l : List Creation} :
    x ∈ sortTimestampDesc l ↔ x ∈ l := by
  induction l with
  | nil => simp [sortTimestampDesc]
  | cons a as ih => simp [sortTimestampDesc, mem_insertDesc, ih]

theorem pairwise_insertDesc {r : Creation} {l : List Creation}
    (hl : l.Pairwise newerFirst) (hid : ∀ x ∈ l, r.id < x.id) :
    (insertDesc r l).Pairwise newerFirst := by
  induction l with
  | nil => simp [insertDesc]
  | cons a as ih =>
    rcases List.pairwise_cons.mp hl with ⟨ha, has⟩
    simp only [insertDesc]
    split
    case isTrue h =>
      refine List.pairwise_cons.mpr ⟨?_, ih has ?_⟩
      · intro y hy
        rcases mem_insertDesc.mp hy with rfl | hy2
        · exact Or.inl h
        · exact ha y hy2
      · intro x hx
        exact hid x (List.mem_cons_of_mem a hx)
    case isFalse h =>
      have hle : a.timestamp ≤ r.timestamp := le_of_not_lt h
      refine List.pairwise_cons.mpr ⟨?_, hl⟩
      intro y hy
      have hyle : y.timestamp ≤ r.timestamp := by
        rcases List.mem_cons.mp hy with rfl | hy2
        · exact hle
        · rcases ha y hy2 with hlt | ⟨heq, _⟩
          · exact le_trans (le_of_lt hlt) hle
          · exact le_trans heq.ge hle
      rcases lt_or_eq_of_le hyle with hlt | heq
      · exact Or.inl hlt
      · exact Or.inr ⟨heq.symm, hid y hy⟩

theorem pairwise_sortTimestampDesc {l : List Creation}
    (hid : l.Pairwise (fun a b => a.id < b.id)) :
    (sortTimestampDesc l).Pairwise newerFirst := by
  induction l with
  | nil => simp [sortTimestampDesc]
  | cons a as ih =>
    rcases List.pairwise_cons.mp hid with ⟨ha, has⟩
    exact pairwise_insertDesc (ih has)
      (fun x hx => ha x (mem_sortTimestampDesc.mp hx))

theorem selectNearest_cons_none {target : Int} {a : Creation} {as : List Creation}
    (h : selectNearest target as = none) :
    selectNearest target (a :: as) = some a := by
  simp [selectNearest, h]

theorem selectNearest_cons_some_lt {target : Int} {a d : Creation}
    {as : List Creation} (h : selectNearest target as = some d)
    (hlt : tdist d.timestamp target < tdist a.timestamp target) :
    selectNearest target (a :: as) = some d := by
  simp [selectNearest, h, hlt]

theorem selectNearest_cons_some_ge {target : Int} {a d : Creation}
    {as : List Creation} (h : selectNearest target as = some d)
    (hge : ¬ tdist d.timestamp target < tdist a.timestamp target) :
    selectNearest target (a :: as) = some a := by
  simp [selectNearest, h, hge]

theorem selectNearest_spec (target : Int) :
    ∀ (l : List Creation), l.Pairwise (fun a b => a.id < b.id) →
      ∀ c, selectNearest target l = some c →
        c ∈ l ∧ ∀ x ∈ l, tdist c.timestamp target ≤ tdist x.timestamp target ∧
          (tdist x.timestamp target = tdist c.timestamp target → c.id ≤ x.id) := by
  intro l
  induction l with
  | nil => intro _ c h; simp [selectNearest] at h
  | cons a as ih =>
    intro hid c h
    rcases List.pairwise_cons.mp hid with ⟨ha, has⟩
    cases hrec : selectNearest target as with
    | none =>
      have hasnil : as = [] := by
        cases as with
        | nil => rfl
        | cons b bs =>
          cases h2 : selectNearest target bs with
          | none =>
            rw [selectNearest_cons_none h2] at hrec
            exact absurd hrec (by simp)
          | some e =>
            by_cases h3 : tdist e.timestamp target < tdist b.timestamp target
            · rw [selectNearest_cons_some_lt h2 h3] at hrec
              exact absurd hrec (by simp)
            · rw [selectNearest_cons_some_ge h2 h3] at hrec
              exact absurd hrec (by simp)
      subst hasnil
      rw [selectNearest_cons_none hrec] at h
      injection h with h
      subst h
      refine ⟨List.mem_cons_self a [], ?_⟩
      intro x hx
      rcases List.mem_cons.mp hx with rfl | hx2
      · exact ⟨le_refl _, fun _ => le_refl _⟩
      · simp at hx2
    | some d =>
      rcases ih has d hrec with ⟨hdmem, hdmin⟩
      by_cases hcmp : tdist d.timestamp target < tdist a.timestamp target
      · rw [selectNearest_cons_some_lt hrec hcmp] at h
        injection h with h
        subst h
        refine ⟨List.mem_cons_of_mem a hdmem, ?_⟩
        intro x hx
        rcases List.mem_cons.mp hx with rfl | hx2
        · exact ⟨le_of_lt hcmp, fun hx3 => absurd hx3.symm (ne_of_lt hcmp)⟩
        · exact hdmin x hx2
      · rw [selectNearest_cons_some_ge hrec hcmp] at h
        injection h with h
        subst h
        have hle : tdist a.timestamp target ≤ tdist d.timestamp target :=
          le_of_not_lt hcmp
        refine ⟨List.mem_cons_self a as, ?_⟩
        intro x hx
        rcases List.mem_cons.mp hx with rfl | hx2
        · exact ⟨le_refl _, fun _ => le_refl _⟩
        · exact ⟨le_trans hle (hdmin x hx2).1, fun _ => le_of_lt (ha x hx2)⟩

/-- Claim C1: for every tuple of four strings, calling save_creation with that
tuple and then get_all_creations yields a sequence containing a record whose
original_prompt, enhanced_prompt, image_path and model_path equal the four
inputs exactly.  Stated on a store whose connection works, the situation the
round-trip sentence describes. -/
theorem save_then_list_roundtrip (m : LongTermMemory) (now : Int)
    (o e i md : String) (h : m.connOk = true) :
    ∃ c ∈ ((m.save_creation now o e i md).1).get_all_creations,
      c.original_prompt = o ∧ c.enhanced_prompt = e ∧
      c.image_path = i ∧ c.model_path = md := by
  refine ⟨{ id := m.nextId, timestamp := now, original_prompt := o,
            enhanced_prompt := e, image_path := i, model_path := md },
          ?_, rfl, rfl, rfl, rfl⟩
  simp [LongTermMemory.save_creation, LongTermMemory.get_all_creations, h,
        mem_sortTimestampDesc]

/-- Witness for claim C1 at a concrete store and concrete strings. -/
theorem save_then_list_roundtrip_witness :
    ∃ c ∈ ((emptyStore.save_creation 5 "a" "b" "c" "d").1).get_all_creations,
      c.original_prompt = "a" ∧ c.enhanced_prompt = "b" ∧
      c.image_path = "c" ∧ c.model_path = "d" :=
  save_then_list_roundtrip emptyStore 5 "a" "b" "c" "d" rfl

/-- Claim C2: get_all_creations returns the creations ordered by timestamp
descending, and when two creations share a timestamp their relative order is
the stable scan order — ascending identifier, a tie-break determined by the
identifier alone — and, the query being a pure function of the store state,
identical across repeated calls.  Stated for a working connection and for a
table whose rows carry ascending AUTOINCREMENT identifiers. -/
theorem list_all_ordering (m : LongTermMemory) (h : m.connOk = true)
    (hid : m.rows.Pairwise (fun a b => a.id < b.id)) :
    m.get_all_creations.Pairwise newerFirst ∧
      m.get_all_creations = m.get_all_creations := by
  refine ⟨?_, rfl⟩
  simpa [LongTermMemory.get_all_creations, h] using pairwise_sortTimestampDesc hid

/-- Healthy store with two rows sharing a timestamp, in insertion order. -/
def tieStore : LongTermMemory :=
  { rows := [{ id := 1, timestamp := 50, original_prompt := "t1",
               enhanced_prompt := "u1", image_path := "v1", model_path := "w1" },
             { id := 2, timestamp := 50, original_prompt := "t2",
               enhanced_prompt := "u2", image_path := "v2", model_path := "w2" },
             { id := 3, timestamp := 20, original_prompt := "t3",
               enhanced_prompt := "u3", image_path := "v3", model_path := "w3" }],
    nextId := 4, connOk := true }

/-- Witness for claim C2 on a concrete store containing a timestamp tie. -/
theorem list_all_ordering_witness :
    tieStore.get_all_creations.Pairwise newerFirst ∧
      tieStore.get_all_creations = tieStore.get_all_creations :=
  list_all_ordering tieStore rfl (by decide)

/-- Claim C10: AdvancedMemory.get_creation_by_id is a total function of the
engine outcome — no exception escapes the bare except — and it maps every
engine error to none, the very value returned when the id is absent (the
engine answers with empty metadatas), so the caller cannot distinguish the
two. -/
theorem get_creation_by_id_total_none
    (engineGet : String → Except String (List String × List Metadata))
    (cid : String) :
    (∀ e, engineGet cid = Except.error e →
        AdvancedMemory.get_creation_by_id engineGet cid = none) ∧
    (∀ ids, engineGet cid = Except.ok (ids, []) →
        AdvancedMemory.get_creation_by_id engineGet cid = none) := by
  constructor
  · intro e he
    simp [AdvancedMemory.get_creation_by_id, he]
  · intro ids hok
    simp [AdvancedMemory.get_creation_by_id, hok]

/-- Witness for claim C10: a concrete failing engine yields none. -/
theorem get_creation_by_id_total_none_witness :
    AdvancedMemory.get_creation_by_id (fun _ => Except.error "engine down")
      "some-id" = none :=
  (get_creation_by_id_total_none (fun _ => Except.error "engine down")
    "some-id").1 "engine down" rfl

theorem get_creation_by_date_sel {parse : String → Option Int}
    {m : LongTermMemory} {now t : Int} {ds : String} {c : Creation}
    (hp : parseTarget parse now ds = some t) (hc : m.connOk = true)
    (hsel : selectNearest t m.rows = some c) :
    LongTermMemory.get_creation_by_date parse m now ds = [c] := by
  simp [LongTermMemory.get_creation_by_date, hp, hc, hsel]

/-- Fuzzy-parse oracle for the claim C3 scenario, standing for dateutil
mapping the concrete date string below to the instant 100000. -/
def parseMid : String → Option Int :=
  fun s => if s = "2024-06-01 12:00" then some 100000 else none

/-- Claim C3 counterexample: with exactly two creations at T - 1h and T + 1h
(T = 100000, one hour = 3600) and target T, get_creation_by_date returns the
EARLIER creation — the first minimum in scan order, the query having no
tie-break clause — not the T + 1h one the claim requires. -/
theorem nearest_by_date_tie_counterexample :
    LongTermMemory.get_creation_by_date parseMid twoRowStore 0
        "2024-06-01 12:00" = [rowEarly] ∧
      rowEarly.timestamp = 100000 - 3600 ∧
      rowLate.timestamp = 100000 + 3600 ∧ rowEarly ≠ rowLate := by
  refine ⟨by decide, by decide, by decide, by decide⟩

/-- Claim C3 amended: for a parseable target on a healthy non-empty store,
get_creation_by_date returns exactly one creation whose timestamp has minimum
absolute distance to the parsed target; when several creations tie on that
distance the EARLIEST-created one (smallest identifier) is returned, not the
most recently created one. -/
theorem nearest_by_date_min (parse : String → Option Int)
    (m : LongTermMemory) (now : Int) (ds : String) (t : Int)
    (hp : parseTarget parse now ds = some t) (hc : m.connOk = true)
    (hid : m.rows.Pairwise (fun a b => a.id < b.id)) (hne : m.rows ≠ []) :
    ∃ c, LongTermMemory.get_creation_by_date parse m now ds = [c] ∧
      c ∈ m.rows ∧
      ∀ x ∈ m.rows, tdist c.timestamp t ≤ tdist x.timestamp t ∧
        (tdist x.timestamp t = tdist c.timestamp t → c.id ≤ x.id) := by
  have hex : ∃ c, selectNearest t m.rows = some c := by
    cases hrows : m.rows with
    | nil => exact absurd hrows hne
    | cons a as =>
      cases h2 : selectNearest t as with
      | none => exact ⟨a, selectNearest_cons_none h2⟩
      | some e =>
        by_cases h3 : tdist e.timestamp t < tdist a.timestamp t
        · exact ⟨e, selectNearest_cons_some_lt h2 h3⟩
        · exact ⟨a, selectNearest_cons_some_ge h2 h3⟩
  obtain ⟨c, hsel⟩ := hex
  rcases selectNearest_spec t m.rows hid c hsel with ⟨hmem, hmin⟩
  exact ⟨c, get_creation_by_date_sel hp hc hsel, hmem, hmin⟩

/-- Witness for the amended claim C3 at the concrete tied two-row store. -/
theorem nearest_by_date_min_witness :
    ∃ c, LongTermMemory.get_creation_by_date parseMid twoRowStore 0
        "2024-06-01 12:00" = [c] ∧
      c ∈ twoRowStore.rows ∧
      ∀ x ∈ twoRowStore.rows,
        tdist c.timestamp 100000 ≤ tdist x.timestamp 100000 ∧
          (tdist x.timestamp 100000 = tdist c.timestamp 100000 →
            c.id ≤ x.id) :=
  nearest_by_date_min parseMid twoRowStore 0 "2024-06-01 12:00" 100000
    (by decide) rfl (by decide) (by decide)

/-- Claim C4 counterexample: an unparseable target on a populated store comes
back as the empty list, the very value returned for a parseable target ("now")
on an empty store, so the ParseFailure outcome is NOT distinguishable by the
caller from the no-creations-match outcome. -/
theorem unparseable_date_counterexample :
    LongTermMemory.get_creation_by_date (fun _ => none) twoRowStore 0
        "gibberish not a date" = [] ∧
      LongTermMemory.get_creation_by_date (fun _ => none) emptyStore 0 "now"
        = [] := by
  exact ⟨by decide, by decide⟩

/-- Claim C4 amended: an unparseable target makes get_creation_by_date return
the empty list — the ValueError lands in the same except branch as sqlite
errors, which prints and returns [] — and that is exactly the value produced
by any query against a store holding no rows, so a parse failure and "no
creations match" are indistinguishable to the caller. -/
theorem unparseable_date_empty (parse : String → Option Int)
    (m m0 : LongTermMemory) (now now0 : Int) (ds ds0 : String)
    (hp : parseTarget parse now ds = none) (h0 : m0.rows = []) :
    LongTermMemory.get_creation_by_date parse m now ds = [] ∧
      LongTermMemory.get_creation_by_date parse m0 now0 ds0 =
        LongTermMemory.get_creation_by_date parse m now ds := by
  have h1 : LongTermMemory.get_creation_by_date parse m now ds = [] := by
    simp [LongTermMemory.get_creation_by_date, hp]
  have h2 : LongTermMemory.get_creation_by_date parse m0 now0 ds0 = [] := by
    unfold LongTermMemory.get_creation_by_date
    cases parseTarget parse now0 ds0 with
    | none => rfl
    | some t => by_cases hc : m0.connOk <;> simp [hc, h0, selectNearest]
  exact ⟨h1, h2.trans h1.symm⟩

/-- Witness for the amended claim C4 at concrete stores and strings. -/
theorem unparseable_date_empty_witness :
    LongTermMemory.get_creation_by_date (fun _ => none) oneRowStore 0
        "gibberish" = [] ∧
      LongTermMemory.get_creation_by_date (fun _ => none) emptyStore 7 "now" =
        LongTermMemory.get_creation_by_date (fun _ => none) oneRowStore 0
          "gibberish" :=
  unparseable_date_empty (fun _ => none) oneRowStore emptyStore 0 7
    "gibberish" "now" (by decide) rfl

/-- Claim C5 counterexample: on a store whose connection fails both reads
return the empty list — exactly what the healthy empty store returns — even
though the failing store does hold a creation, so the caller cannot
distinguish "store unreachable" from "no creations match". -/
theorem store_failure_counterexample :
    brokenStore.get_all_creations = [] ∧
      LongTermMemory.get_creation_by_date (fun _ => some 0) brokenStore 0
        "2024" = [] ∧
      emptyStore.get_all_creations = [] ∧ brokenStore.rows ≠ [] := by
  refine ⟨rfl, by decide, rfl, by decide⟩

/-- Claim C5 amended: when the underlying store is unreachable, both read
operations catch the sqlite error and return the empty list — the same value
an empty healthy store produces — rather than any distinct error outcome. -/
theorem store_failure_empty (m : LongTermMemory)
    (parse : String → Option Int) (now : Int) (ds : String)
    (h : m.connOk = false) :
    m.get_all_creations = [] ∧
      LongTermMemory.get_creation_by_date parse m now ds = [] ∧
      m.get_all_creations = emptyStore.get_all_creations := by
  refine ⟨?_, ?_, ?_⟩
  · simp [LongTermMemory.get_all_creations, h]
  · unfold LongTermMemory.get_creation_by_date
    cases parseTarget parse now ds with
    | none => rfl
    | some t => simp [h]
  · simp [LongTermMemory.get_all_creations, h, emptyStore, sortTimestampDesc]

/-- Witness for the amended claim C5 at the concrete broken store. -/
theorem store_failure_empty_witness :
    brokenStore.get_all_creations = [] ∧
      LongTermMemory.get_creation_by_date (fun _ => some 3) brokenStore 0
        "yesterday" = [] ∧
      brokenStore.get_all_creations = emptyStore.get_all_creations :=
  store_failure_empty brokenStore (fun _ => some 3) 0 "yesterday" rfl

/-- Claim C6 counterexample: a successful save assigns the identifier 1 to the
appended row yet hands back Python None — not that identifier — and a save on
an unreachable store hands back the very same None: no StorageFailure outcome
is ever reported. -/
theorem save_returns_none_counterexample :
    (emptyStore.save_creation 5 "a2" "b2" "c2" "d2").2 = none ∧
      (emptyStore.save_creation 5 "a2" "b2" "c2" "d2").1.rows.map Creation.id
        = [1] ∧
      (brokenStore.save_creation 5 "a2" "b2" "c2" "d2").2 = none := by
  refine ⟨rfl, rfl, rfl⟩

/-- Claim C6 amended: save_creation appends the row under the next
AUTOINCREMENT identifier and commits when the connection works, and leaves the
store unchanged when the write fails, but in both cases it returns Python
None: the identifier is never returned to the caller and no StorageFailure
outcome is reported, success and failure being indistinguishable from the
return value. -/
theorem save_creation_behavior (m : LongTermMemory) (now : Int)
    (o e i md : String) :
    (m.save_creation now o e i md).2 = none ∧
      (m.connOk = true → (m.save_creation now o e i md).1.rows =
        m.rows ++ [{ id := m.nextId, timestamp := now, original_prompt := o,
                     enhanced_prompt := e, image_path := i,
                     model_path := md }]) ∧
      (m.connOk = false → (m.save_creation now o e i md).1 = m) := by
  unfold LongTermMemory.save_creation
  by_cases h : m.connOk <;> simp [h]

/-- Witness for the amended claim C6 at a concrete store. -/
theorem save_creation_behavior_witness :
    (emptyStore.save_creation 7 "w" "x" "y" "z").1.rows =
      emptyStore.rows ++ [{ id := 1, timestamp := 7, original_prompt := "w",
                            enhanced_prompt := "x", image_path := "y",
                            model_path := "z" }] :=
  (save_creation_behavior emptyStore 7 "w" "x" "y" "z").2.1 rfl

/-- Claim C7: the fallback embedding is a pure function of its input text —
the model carries no source of randomness beyond the process-fixed hash, so
two calls on the same text within one process yield identical vectors. -/
theorem fallback_embedding_deterministic (pyHash : String → Int)
    (t1 t2 : String) (h : t1 = t2) :
    fallback_embedding pyHash t1 = fallback_embedding pyHash t2 := by
  rw [h]

/-- Witness for claim C7 at a concrete hash and text. -/
theorem fallback_embedding_deterministic_witness :
    fallback_embedding (fun _ => 37) "a majestic robot" =
      fallback_embedding (fun _ => 37) "a majestic robot" :=
  fallback_embedding_deterministic (fun _ => 37) "a majestic robot"
    "a majestic robot" rfl

/-- Claim C8 counterexample: the fallback vector length is not fixed — these
two texts produce vectors of lengths 1 and 2. -/
theorem fallback_embedding_length_counterexample :
    (fallback_embedding (fun _ => 0) "hello").length = 1 ∧
      (fallback_embedding (fun _ => 0) "hello world").length = 2 ∧
      (1 : Nat) ≠ 2 := by
  refine ⟨by decide, by decide, by decide⟩

/-- Claim C8 amended: the fallback embedding is built from the first 20
whitespace-separated tokens of the text and every component lies in [0, 1),
but its length is min(20, number of tokens), which varies with the input
rather than being fixed. -/
theorem fallback_embedding_bounds (pyHash : String → Int) (text : String) :
    (fallback_embedding pyHash text).length = min 20 (pySplit text).length ∧
      ∀ q ∈ fallback_embedding pyHash text, 0 ≤ q ∧ q < 1 := by
  constructor
  · simp [fallback_embedding]
  · intro q hq
    simp only [fallback_embedding, List.mem_map] at hq
    obtain ⟨w, hw, rfl⟩ := hq
    constructor
    · apply div_nonneg
      · exact_mod_cast Int.emod_nonneg (pyHash w) (by norm_num)
      · norm_num
    · rw [div_lt_one (by norm_num)]
      exact_mod_cast Int.emod_lt_of_pos (pyHash w) (by norm_num)

/-- Witness for the amended claim C8: the single component produced for a
one-token text at a concrete hash lies in [0, 1). -/
theorem fallback_embedding_bounds_witness :
    (0 : ℚ) ≤ (((37 : Int) % 1000 : Int) : ℚ) / 1000 ∧
      (((37 : Int) % 1000 : Int) : ℚ) / 1000 < 1 :=
  (fallback_embedding_bounds (fun _ => 37) "token").2
    ((((37 : Int) % 1000 : Int) : ℚ) / 1000)
    (show _ ∈ [(((37 : Int) % 1000 : Int) : ℚ) / 1000] from
      List.mem_singleton.mpr rfl)

/-- Reference token longer than 30 characters that carries a date fragment. -/
def longTok : String := "aaaaaaaaaaaaaaaaaaaaa 2024-06-01"

/-- Fuzzy-parse oracle for the claim C9 scenario.  Modelled from the spec:
fuzzy date parsing accepts free-form natural-language fragments, so dateutil
extracts the date inside `longTok`, yielding the instant 100000. -/
def fuzzyParse : String → Option Int :=
  fun s => if s = longTok then some 100000 else none

/-- Claim C9 counterexample: with the similarity index unavailable
(use_advanced_memory false), a token longer than 30 characters does NOT always
resolve to none — the identifier branch is skipped and the token falls
through to the date branch, and on this populated store the resolver returns
a grounding. -/
theorem long_token_counterexample :
    30 < longTok.length ∧
      resolve_reference fuzzyParse false (fun _ => none) oneRowStore 0 longTok
        = some (toString rowEarly.timestamp, rowEarly.original_prompt) := by
  refine ⟨by decide, by decide⟩

/-- Claim C9 amended: with the similarity index unavailable a token longer
than 30 characters is never treated as an opaque identifier — the identifier
branch additionally requires the index — and, the whole reference branch
being wrapped in a try/except that only logs, no error reaches the caller
(the model is a total function); the resolver returns none whenever the token
is not the "recent" sentinel and fuzzy parsing fails on it, which is the
situation for an opaque identifier token. -/
theorem long_token_no_index (parse : String → Option Int)
    (adv : String → Option (String × String)) (ltm : LongTermMemory)
    (now : Int) (ref : String) (hlen : 30 < ref.length)
    (hrec : pyLower ref ≠ "recent")
    (hp : parseTarget parse now ref = none) :
    resolve_reference parse false adv ltm now ref = none := by
  have hne : ref ≠ "" := fun h => absurd (h ▸ hlen) (by decide)
  simp [resolve_reference, hne, hrec, LongTermMemory.get_creation_by_date, hp]

/-- A 31-character token on which fuzzy parsing fails. -/
def opaqueTok : String := "bbbbbbbbbbbbbbbbbbbbbbbbbbbbbbb"

/-- Witness for the amended claim C9 at a concrete opaque token; the advanced
lookup oracle would answer, showing it is indeed never consulted. -/
theorem long_token_no_index_witness :
    resolve_reference (fun _ => none) false (fun _ => some ("x", "y"))
      oneRowStore 0 opaqueTok = none :=
  long_token_no_index (fun _ => none) (fun _ => some ("x", "y")) oneRowStore 0
    opaqueTok (by decide) (by decide) (by decide)
